import Mathlib

/-!
Shallow embedding of `src/main.py` of the gold-ai-free service: a FastAPI
app exposing a hardcoded gold trading signal through a dashboard, a JSON
endpoint and a health endpoint, plus an hourly Telegram notifier.

Python truthiness of optional environment strings is modelled explicitly:
`None` and the empty string are both falsy.
-/

namespace GoldAI

/-- Truthiness of an optional environment string, as Python evaluates it:
`None` is falsy and the empty string is falsy; every other string is truthy. -/
def truthy : Option String → Bool
  | none => false
  | some s => !s.isEmpty

/-- Environment variables read at process start (main.py lines 15-16):
`BOT_TOKEN = os.environ.get("BOT_TOKEN")`, `CHAT_ID = os.environ.get("CHAT_ID")`.
`none` models an unset variable. -/
structure Env where
  BOT_TOKEN : Option String
  CHAT_ID : Option String
deriving DecidableEq, Repr

/-- The Telegram `Bot` client object, holding only the token it was
constructed with (`Bot(token=BOT_TOKEN)`, main.py line 21). -/
structure Bot where
  token : String
deriving DecidableEq, Repr

/-- Module-level bot initialization (main.py lines 19-23):
`bot = None; if BOT_TOKEN: bot = Bot(token=BOT_TOKEN)`.
The guard is Python truthiness, so an empty token also leaves `bot = None`. -/
def initBot (env : Env) : Option Bot :=
  if truthy env.BOT_TOKEN then some ⟨env.BOT_TOKEN.getD ""⟩ else none

/-- The Signal Record: `{bias, confidence, reasons}`. -/
structure Signal where
  bias : String
  confidence : Nat
  reasons : List String
deriving DecidableEq, Repr

/-- The signal provider `gold_signal()` (main.py lines 25-36): returns the
hardcoded record on every call. The `Unit` argument models one call. -/
def gold_signal (_ : Unit) : Signal :=
  { bias := "BUY"
  , confidence := 70
  , reasons :=
      [ "Inflation high"
      , "Central banks buying gold"
      , "ETF inflows positive"
      , "Geopolitical risk rising" ] }

/-- Log levels used by the module logger. -/
inductive LogLevel where
  | info
  | warning
  | error
deriving DecidableEq, Repr

/-- One log record emitted through `logger`. -/
structure LogEntry where
  level : LogLevel
  text : String
deriving DecidableEq, Repr

/-- Observable effects of one invocation of `send_signal`:
how many times the signal provider was called, the messaging calls made
(chat id and message text of each `bot.send_message`), the log records
emitted, and the exception propagated to the caller (`none` when the
function returns normally). -/
structure SendEffects where
  providerCalls : Nat
  sendCalls : List (String × String)
  logs : List LogEntry
  raised : Option String
deriving DecidableEq, Repr

/-- Message formatting inside `send_signal` (main.py lines 46-51):
the title, a Bias line, a Confidence line, a blank line, a Reasons header,
then one bulleted line per reason, each line ending in a newline. -/
def formatMsg (s : Signal) : String :=
  "GOLD SIGNAL\n\n"
    ++ "Bias: " ++ s.bias ++ "\n"
    ++ "Confidence: " ++ toString s.confidence ++ "%\n\n"
    ++ "Reasons:\n"
    ++ String.join (s.reasons.map (fun r => "- " ++ r ++ "\n"))

/-- The notifier `send_signal()` (main.py lines 38-56). The outcome of the
external `bot.send_message` call is passed in as `outcome`: `Except.ok ()`
when the messaging service accepts the message, `Except.error e` when the
client raises an exception rendered as `e`. The guard
`if not bot or not CHAT_ID` uses Python truthiness on both operands. -/
def send_signal (env : Env) (outcome : Except String Unit) : SendEffects :=
  if (initBot env).isNone || !truthy env.CHAT_ID then
    { providerCalls := 0
    , sendCalls := []
    , logs := [⟨LogLevel.warning, "Telegram bot or CHAT_ID not configured"⟩]
    , raised := none }
  else
    let s := gold_signal ()
    let msg := formatMsg s
    let chatId := env.CHAT_ID.getD ""
    match outcome with
    | Except.ok _ =>
        { providerCalls := 1
        , sendCalls := [(chatId, msg)]
        , logs := [⟨LogLevel.info, "Signal sent successfully"⟩]
        , raised := none }
    | Except.error e =>
        { providerCalls := 1
        , sendCalls := [(chatId, msg)]
        , logs := [⟨LogLevel.error, "Error sending message: " ++ e⟩]
        , raised := none }

/-- Color selection in `home()` (main.py line 70):
`color = "green" if s['bias'] == "BUY" else "red" if s['bias'] == "SELL" else "orange"`. -/
def colorOf (bias : String) : String :=
  if bias == "BUY" then "green" else if bias == "SELL" then "red" else "orange"

/-- Template text of the dashboard f-string (main.py lines 72-110) up to the
first `{color}` interpolation slot. Literal braces of the CSS (written `\x7b\x7b`
and `\x7d\x7d` in the Python f-string) are `\x7b` and `\x7d` here. -/
def htmlA : String := "
    <!DOCTYPE html>
    <html>
    <head>
        <title>Gold AI Signal</title>
        <meta name=\"viewport\" content=\"width=device-width, initial-scale=1\">
        <style>
            body \x7b
                font-family: Arial, sans-serif;
                max-width: 600px;
                margin: 0 auto;
                padding: 20px;
                background: linear-gradient(135deg, #667eea 0%, #764ba2 100%);
                min-height: 100vh;
                color: white;
            \x7d
            .card \x7b
                background: rgba(255, 255, 255, 0.95);
                border-radius: 20px;
                padding: 30px;
                box-shadow: 0 10px 30px rgba(0,0,0,0.2);
                color: #333;
            \x7d
            h1 \x7b
                text-align: center;
                color: #333;
                margin-top: 0;
                border-bottom: 2px solid #f0f0f0;
                padding-bottom: 20px;
            \x7d
            .bias \x7b
                font-size: 48px;
                font-weight: bold;
                text-align: center;
                margin: 20px 0;
                padding: 20px;
                border-radius: 10px;
                color: white;
                background-color: "

/-- Template text between the first and second `{color}` slots
(main.py lines 110-142). The `content` glyph is the mis-encoded bullet of the
source, characters U+00E2 U+20AC U+00A2. -/
def htmlB : String := ";
            \x7d
            .confidence \x7b
                text-align: center;
                font-size: 24px;
                margin: 20px 0;
                color: #666;
            \x7d
            .reasons \x7b
                background: #f8f9fa;
                border-radius: 10px;
                padding: 20px;
                margin-top: 20px;
            \x7d
            .reasons h3 \x7b
                margin-top: 0;
                color: #333;
            \x7d
            .reasons ul \x7b
                list-style-type: none;
                padding: 0;
            \x7d
            .reasons li \x7b
                padding: 10px;
                margin: 5px 0;
                background: white;
                border-radius: 5px;
                box-shadow: 0 2px 5px rgba(0,0,0,0.05);
                color: #555;
            \x7d
            .reasons li:before \x7b
                content: \"â€¢\";
                color: "

/-- Template text between the second `{color}` slot and the `{s['bias']}`
slot (main.py lines 142-166). -/
def htmlC : String := ";
                font-weight: bold;
                margin-right: 10px;
            \x7d
            .footer \x7b
                text-align: center;
                margin-top: 30px;
                font-size: 14px;
                color: rgba(255,255,255,0.8);
            \x7d
            .status \x7b
                text-align: center;
                margin-top: 20px;
                padding: 10px;
                background: rgba(255,255,255,0.2);
                border-radius: 5px;
                font-size: 14px;
            \x7d
        </style>
    </head>
    <body>
        <div class=\"card\">
            <h1>Gold AI Signal</h1>
            <div class=\"bias\">
                "

/-- Template text between the `{s['bias']}` slot and the `{s['confidence']}`
slot (main.py lines 166-169). -/
def htmlD : String := "
            </div>
            <div class=\"confidence\">
                Confidence: "

/-- Template text between the `{s['confidence']}` slot and the joined
`<li>` items (main.py lines 169-174). -/
def htmlE : String := "%
            </div>
            <div class=\"reasons\">
                <h3>Analysis Reasons:</h3>
                <ul>
                    "

/-- Template text between the joined `<li>` items and the Telegram status
slot (main.py lines 174-179). -/
def htmlF : String := "
                </ul>
            </div>
        </div>
        <div class=\"status\">
            Telegram alerts: "

/-- Template text after the Telegram status slot to the end of the f-string
(main.py lines 179-188), including the trailing newline and indentation
before the closing triple quote. -/
def htmlG : String := "
            <br>
            Updates every hour
        </div>
        <div class=\"footer\">
            Powered by FastAPI on Render
        </div>
    </body>
    </html>
    "

/-- The dashboard handler `home()` (main.py lines 64-189): calls
`gold_signal`, picks the color from the bias, and interpolates bias,
confidence, the `<li>`-wrapped reasons and the Telegram status into the
template. `'Active' if bot and CHAT_ID else 'Not configured'` uses Python
truthiness of the module-level `bot` and `CHAT_ID`. -/
def home (env : Env) : String :=
  let s := gold_signal ()
  let color := colorOf s.bias
  htmlA ++ (color ++ (htmlB ++ (color ++ (htmlC
    ++ (s.bias
    ++ (htmlD ++ (toString s.confidence
    ++ (htmlE ++ (String.join (s.reasons.map (fun r => "<li>" ++ r ++ "</li>"))
    ++ (htmlF ++ ((if (initBot env).isSome && truthy env.CHAT_ID then "Active" else "Not configured")
    ++ htmlG)))))))))))

/-- A structured HTTP response: status code and JSON-serializable body.
FastAPI answers a handler returning a plain value with status 200. -/
structure ApiResponse (α : Type) where
  status : Nat
  body : α
deriving DecidableEq, Repr

/-- The endpoint `GET /api/signal` (main.py lines 191-194): returns
`gold_signal()` as the body; FastAPI uses the default status 200. The
`Unit` argument models one request. -/
def get_signal (u : Unit) : ApiResponse Signal :=
  { status := 200, body := gold_signal u }

/-- Process state visible to the handlers beyond the read-only environment:
the running flag of the background scheduler.

Modelled from the spec: the APScheduler `BackgroundScheduler` is an external
collaborator whose code is not in this repository; per the spec the periodic
reported running state is true after `scheduler.start()` and false after
`scheduler.shutdown()`. -/
structure ProcState where
  schedRunning : Bool
deriving DecidableEq, Repr

/-- State right after module initialization, where `scheduler.start()` has
run (main.py line 61). -/
def startState : ProcState := ⟨true⟩

/-- The shutdown handler `shutdown_event()` (main.py lines 206-209):
calls `scheduler.shutdown()`, after which the scheduler no longer runs. -/
def shutdown_event (st : ProcState) : ProcState :=
  { st with schedRunning := false }

/-- Body of the `GET /health` response (main.py lines 199-203). -/
structure HealthBody where
  status : String
  telegram_configured : Bool
  scheduler_running : Bool
deriving DecidableEq, Repr

/-- The endpoint `GET /health` (main.py lines 196-203):
`telegram_configured` is `bool(bot and CHAT_ID)` (Python truthiness of the
module-level `bot` and of `CHAT_ID`), `scheduler_running` is
`scheduler.running`. -/
def health_check (env : Env) (st : ProcState) : ApiResponse HealthBody :=
  { status := 200
  , body :=
      { status := "healthy"
      , telegram_configured := (initBot env).isSome && truthy env.CHAT_ID
      , scheduler_running := st.schedRunning } }

/-- Events a process can observe after start: inbound read requests and the
shutdown signal. -/
inductive Event where
  | reqHome
  | reqSignal
  | reqHealth
  | shutdown
deriving DecidableEq, Repr

/-- Responses the read endpoints can produce. -/
inductive Resp where
  | page (html : String)
  | signal (r : ApiResponse Signal)
  | health (r : ApiResponse HealthBody)
deriving DecidableEq, Repr

/-- One step of the process: a read request produces its response and
leaves the state untouched (no handler assigns to any module-level
variable); shutdown produces no response and stops the scheduler via
`shutdown_event`. -/
def stepEvent (env : Env) (st : ProcState) : Event → Option Resp × ProcState
  | Event.reqHome => (some (Resp.page (home env)), st)
  | Event.reqSignal => (some (Resp.signal (get_signal ())), st)
  | Event.reqHealth => (some (Resp.health (health_check env st)), st)
  | Event.shutdown => (none, shutdown_event st)

/-- Folding a list of events over the process state. -/
def runEvents (env : Env) (st : ProcState) : List Event → ProcState
  | [] => st
  | e :: es => runEvents env (stepEvent env st e).2 es

/-- Decides whether the first list starts with the second argument list
matched character by character. -/
def headMatch : List Char → List Char → Bool
  | [], _ => true
  | _ :: _, [] => false
  | a :: as, b :: bs => a == b && headMatch as bs

/-- Decides whether `sub` occurs contiguously inside the second list. -/
def occursIn (sub : List Char) : List Char → Bool
  | [] => sub.isEmpty
  | b :: bs => headMatch sub (b :: bs) || occursIn sub bs

/-- Decides whether the string `sub` occurs as a contiguous substring of
`s`, by scanning the character data. -/
def strOccurs (sub s : String) : Bool := occursIn sub.data s.data

/-- Splits character data at newline characters, accumulating the current
line in reverse. A trailing newline yields a final empty line. -/
def splitLinesAux (cur : List Char) : List Char → List (List Char)
  | [] => [cur.reverse]
  | c :: cs =>
      if c == '\n' then cur.reverse :: splitLinesAux [] cs
      else splitLinesAux (c :: cur) cs

/-- The newline-separated lines of a string. -/
def msgLines (s : String) : List String :=
  (splitLinesAux [] s.data).map String.mk

/-- Message structure as the specification words it, for comparison with
the message `send_signal` actually formats: a title line, a Bias line, a
Confidence line, a blank line, then one bulleted line per reason — with no
other lines. -/
def claimedMsgLines (s : Signal) : List String :=
  ["GOLD SIGNAL", "Bias: " ++ s.bias, "Confidence: " ++ toString s.confidence ++ "%", ""]
    ++ s.reasons.map (fun r => "- " ++ r)

/-- A list always starts with itself, with anything appended after. -/
theorem headMatch_self_append (l t : List Char) : headMatch l (l ++ t) = true := by
  induction l with
  | nil => rfl
  | cons a as ih => simp [headMatch, ih]

/-- A list occurs at the head of itself followed by anything. -/
theorem occursIn_self_append (sub post : List Char) :
    occursIn sub (sub ++ post) = true := by
  cases sub with
  | nil =>
    cases post with
    | nil => rfl
    | cons b bs => simp [occursIn, headMatch]
  | cons a as =>
    simp [occursIn, headMatch, headMatch_self_append]

/-- Occurrence is preserved by prepending any list. -/
theorem occursIn_append_left (pre sub l : List Char)
    (h : occursIn sub l = true) : occursIn sub (pre ++ l) = true := by
  induction pre with
  | nil => exact h
  | cons b bs ih => simp [occursIn, ih]

/-- A string occurs in itself followed by anything. -/
theorem strOccurs_here (sub post : String) : strOccurs sub (sub ++ post) = true := by
  unfold strOccurs
  rw [String.data_append]
  exact occursIn_self_append _ _

/-- Occurrence in a string is preserved by prepending any string. -/
theorem strOccurs_append_left (p sub s : String)
    (h : strOccurs sub s = true) : strOccurs sub (p ++ s) = true := by
  unfold strOccurs at h ⊢
  rw [String.data_append]
  exact occursIn_append_left _ _ _ h

/-- The bot is constructed exactly when `BOT_TOKEN` is truthy. -/
theorem initBot_isSome (env : Env) : (initBot env).isSome = truthy env.BOT_TOKEN := by
  unfold initBot
  cases truthy env.BOT_TOKEN <;> simp

/-- Running events that contain no shutdown leaves the process state
unchanged: read requests never write it. -/
theorem runEvents_no_shutdown (env : Env) (evs : List Event) :
    ∀ st : ProcState, Event.shutdown ∉ evs → runEvents env st evs = st := by
  induction evs with
  | nil => intro st _; rfl
  | cons e es ih =>
    intro st h
    have he : e ≠ Event.shutdown := fun hh => h (hh ▸ List.mem_cons_self _ _)
    have hstep : (stepEvent env st e).2 = st := by
      cases e with
      | shutdown => exact absurd rfl he
      | reqHome => rfl
      | reqSignal => rfl
      | reqHealth => rfl
    show runEvents env (stepEvent env st e).2 es = st
    rw [hstep]
    exact ih st (fun hm => h (List.mem_cons_of_mem _ hm))

/-- Once the scheduler flag is false, no event ever sets it back to true:
nothing in the program restarts the scheduler. -/
theorem runEvents_stays_stopped (env : Env) (evs : List Event) :
    ∀ st : ProcState, st.schedRunning = false →
      (runEvents env st evs).schedRunning = false := by
  induction evs with
  | nil => intro st h; exact h
  | cons e es ih =>
    intro st h
    show (runEvents env (stepEvent env st e).2 es).schedRunning = false
    apply ih
    cases e with
    | shutdown => rfl
    | reqHome => exact h
    | reqSignal => exact h
    | reqHealth => exact h

/-- Running a concatenation of event lists runs them in sequence. -/
theorem runEvents_append (env : Env) (l₁ l₂ : List Event) :
    ∀ st : ProcState, runEvents env st (l₁ ++ l₂) = runEvents env (runEvents env st l₁) l₂ := by
  induction l₁ with
  | nil => intro st; rfl
  | cons e es ih =>
    intro st
    show runEvents env (stepEvent env st e).2 (es ++ l₂) = _
    exact ih (stepEvent env st e).2

/-- C1: every call to the signal provider `gold_signal` returns the
identical hardcoded record with bias BUY, confidence 70 and the four fixed
reason strings; any two calls within one process lifetime return equal
records. -/
theorem C1_gold_signal_constant :
    (∀ c₁ c₂ : Unit, gold_signal c₁ = gold_signal c₂) ∧
    gold_signal () =
      { bias := "BUY"
      , confidence := 70
      , reasons :=
          [ "Inflation high"
          , "Central banks buying gold"
          , "ETF inflows positive"
          , "Geopolitical risk rising" ] } :=
  ⟨fun _ _ => rfl, rfl⟩

/-- C2: every request to `GET /api/signal` returns exactly the signal
provider record as the structured body, with status 200. -/
theorem C2_get_signal_returns_record :
    ∀ u : Unit,
      (get_signal u).status = 200 ∧
      (get_signal u).body = gold_signal u ∧
      (get_signal u).body =
        { bias := "BUY"
        , confidence := 70
        , reasons :=
            [ "Inflation high"
            , "Central banks buying gold"
            , "ETF inflows positive"
            , "Geopolitical risk rising" ] } :=
  fun _ => ⟨rfl, rfl, rfl⟩

/-- C3: when either credential is unset, `send_signal` performs zero
messaging calls, never calls the signal provider, logs exactly the warning
and returns without raising. -/
theorem C3_unset_credential_no_send :
    ∀ (env : Env) (outcome : Except String Unit),
      env.BOT_TOKEN = none ∨ env.CHAT_ID = none →
      send_signal env outcome =
        { providerCalls := 0
        , sendCalls := []
        , logs := [⟨LogLevel.warning, "Telegram bot or CHAT_ID not configured"⟩]
        , raised := none } := by
  intro env outcome h
  rcases h with h | h
  · simp [send_signal, initBot, truthy, h]
  · simp [send_signal, truthy, h]

/-- C3 witness: with `BOT_TOKEN` unset and `CHAT_ID` set, the notifier
only logs the warning. -/
theorem C3_unset_credential_no_send_witness :
    send_signal ⟨none, some "chat"⟩ (Except.ok ()) =
      { providerCalls := 0
      , sendCalls := []
      , logs := [⟨LogLevel.warning, "Telegram bot or CHAT_ID not configured"⟩]
      , raised := none } :=
  C3_unset_credential_no_send ⟨none, some "chat"⟩ (Except.ok ()) (Or.inl rfl)

/-- C4: when both credentials are truthy and the messaging client raises,
`send_signal` returns normally (nothing is propagated), attempts delivery
exactly once (no retry), and logs the failure with the underlying cause. -/
theorem C4_delivery_failure_contained :
    ∀ (env : Env) (e : String),
      truthy env.BOT_TOKEN = true → truthy env.CHAT_ID = true →
      (send_signal env (Except.error e)).raised = none ∧
      (send_signal env (Except.error e)).sendCalls.length = 1 ∧
      (send_signal env (Except.error e)).logs =
        [⟨LogLevel.error, "Error sending message: " ++ e⟩] := by
  intro env e hb hc
  have hbot : (initBot env).isNone = false := by
    unfold initBot
    rw [hb]
    rfl
  refine ⟨?_, ?_, ?_⟩ <;> simp [send_signal, hbot, hc]

/-- C4 witness: a concrete failing delivery is contained and logged. -/
theorem C4_delivery_failure_contained_witness :
    (send_signal ⟨some "t", some "c"⟩ (Except.error "network down")).raised = none ∧
    (send_signal ⟨some "t", some "c"⟩ (Except.error "network down")).sendCalls.length = 1 ∧
    (send_signal ⟨some "t", some "c"⟩ (Except.error "network down")).logs =
      [⟨LogLevel.error, "Error sending message: " ++ "network down"⟩] :=
  C4_delivery_failure_contained ⟨some "t", some "c"⟩ "network down" (by decide) (by decide)

/-- C5 counterexample: with `BOT_TOKEN` set to the empty string and
`CHAT_ID` set, both variables are set in the environment, yet `GET /health`
reports `telegram_configured: false`, contradicting the claim that it is
true whenever both are set. -/
theorem C5_set_but_empty_counterexample :
    (Env.mk (some "") (some "123")).BOT_TOKEN.isSome = true ∧
    (Env.mk (some "") (some "123")).CHAT_ID.isSome = true ∧
    (health_check (Env.mk (some "") (some "123")) startState).body.telegram_configured = false := by
  decide

/-- C5 amended: `GET /health` reports `telegram_configured` as the
conjunction of the truthiness of both credentials — false when either is
unset or empty, true when both are set non-empty — with status 200,
independent of the scheduler state and of any delivery outcome (which the
handler never consults). -/
theorem C5_health_configured_truthy :
    ∀ (env : Env) (st st₂ : ProcState),
      (health_check env st).body.telegram_configured =
        (truthy env.BOT_TOKEN && truthy env.CHAT_ID) ∧
      (health_check env st).status = 200 ∧
      (health_check env st).body.telegram_configured =
        (health_check env st₂).body.telegram_configured := by
  intro env st st₂
  refine ⟨?_, rfl, rfl⟩
  simp only [health_check]
  rw [initBot_isSome]

/-- C6 counterexample: with both credentials set, the message the notifier
sends does not consist of only a title, Bias, Confidence, blank, then
bullet lines — its newline-split lines differ from that claimed structure
(the code also emits a blank line after the title and a Reasons header). -/
theorem C6_message_lines_counterexample :
    (send_signal ⟨some "t", some "c"⟩ (Except.ok ())).sendCalls =
      [("c", formatMsg (gold_signal ()))] ∧
    msgLines (formatMsg (gold_signal ())) ≠ claimedMsgLines (gold_signal ()) := by
  constructor
  · rfl
  · decide

/-- C6 amended: when both credentials are truthy, the notifier sends
exactly one message to the configured chat, whose plain text consists of a
title line, a blank line, a Bias line, a Confidence line, a blank line, a
Reasons header line, then one bulleted line per reason in the record
sequence order, ending with a trailing newline. -/
theorem C6_message_format :
    ∀ (env : Env) (outcome : Except String Unit),
      truthy env.BOT_TOKEN = true → truthy env.CHAT_ID = true →
      (send_signal env outcome).sendCalls =
        [(env.CHAT_ID.getD "", formatMsg (gold_signal ()))] ∧
      msgLines (formatMsg (gold_signal ())) =
        [ "GOLD SIGNAL", "", "Bias: BUY", "Confidence: 70%", ""
        , "Reasons:", "- Inflation high", "- Central banks buying gold"
        , "- ETF inflows positive", "- Geopolitical risk rising", "" ] := by
  intro env outcome hb hc
  have hbot : (initBot env).isNone = false := by
    unfold initBot
    rw [hb]
    rfl
  constructor
  · cases outcome <;> simp [send_signal, hbot, hc]
  · decide

/-- C6 witness: the amended format theorem at a concrete configured
environment with a successful delivery. -/
theorem C6_message_format_witness :
    (send_signal ⟨some "t", some "c"⟩ (Except.ok ())).sendCalls =
      [((Env.mk (some "t") (some "c")).CHAT_ID.getD "", formatMsg (gold_signal ()))] ∧
    msgLines (formatMsg (gold_signal ())) =
      [ "GOLD SIGNAL", "", "Bias: BUY", "Confidence: 70%", ""
      , "Reasons:", "- Inflation high", "- Central banks buying gold"
      , "- ETF inflows positive", "- Geopolitical risk rising", "" ] :=
  C6_message_format ⟨some "t", some "c"⟩ (Except.ok ()) (by decide) (by decide)

/-- C7: the dashboard color is selected strictly by bias — green for BUY,
red for SELL, orange otherwise — and for the hardcoded signal the rendered
HTML of `GET /` contains the literal substrings BUY and green, whatever
the environment. -/
theorem C7_dashboard_color_and_content :
    colorOf "BUY" = "green" ∧
    colorOf "SELL" = "red" ∧
    (∀ b : String, b ≠ "BUY" → b ≠ "SELL" → colorOf b = "orange") ∧
    (∀ env : Env, strOccurs "BUY" (home env) = true ∧ strOccurs "green" (home env) = true) := by
  refine ⟨rfl, rfl, ?_, ?_⟩
  · intro b h1 h2
    unfold colorOf
    rw [if_neg (by simpa using h1), if_neg (by simpa using h2)]
  · intro env
    constructor
    · unfold home
      simp only [gold_signal, colorOf]
      norm_num
      apply strOccurs_append_left
      apply strOccurs_append_left
      apply strOccurs_append_left
      apply strOccurs_append_left
      apply strOccurs_append_left
      exact strOccurs_here _ _
    · unfold home
      simp only [gold_signal, colorOf]
      norm_num
      apply strOccurs_append_left
      exact strOccurs_here _ _

/-- C7 witness: the color of a bias that is neither BUY nor SELL is
orange, and the dashboard of an unconfigured environment contains BUY. -/
theorem C7_dashboard_color_witness :
    colorOf "HOLD" = "orange" ∧ strOccurs "BUY" (home ⟨none, none⟩) = true :=
  ⟨C7_dashboard_color_and_content.2.2.1 "HOLD" (by decide) (by decide),
   (C7_dashboard_color_and_content.2.2.2 ⟨none, none⟩).1⟩

/-- C8: after process start the health endpoint reports
`scheduler_running: true` in every state reached without a shutdown event,
and after a shutdown event it reports false in every later state — it
never reports true again. -/
theorem C8_scheduler_running_flag :
    ∀ (env : Env) (evs post : List Event),
      (Event.shutdown ∉ evs →
        (health_check env (runEvents env startState evs)).body.scheduler_running = true) ∧
      (health_check env
          (runEvents env startState (evs ++ Event.shutdown :: post))).body.scheduler_running = false := by
  intro env evs post
  constructor
  · intro h
    show (runEvents env startState evs).schedRunning = true
    rw [runEvents_no_shutdown env evs startState h]
    rfl
  · show (runEvents env startState (evs ++ Event.shutdown :: post)).schedRunning = false
    rw [runEvents_append]
    have hstep :
        runEvents env (runEvents env startState evs) (Event.shutdown :: post) =
          runEvents env (shutdown_event (runEvents env startState evs)) post := rfl
    rw [hstep]
    exact runEvents_stays_stopped env post _ rfl

/-- C8 witness: a run of two reads reports the scheduler running, and a
run with a shutdown followed by another read reports it stopped. -/
theorem C8_scheduler_running_flag_witness :
    (health_check ⟨none, none⟩
      (runEvents ⟨none, none⟩ startState [Event.reqHealth, Event.reqHome])).body.scheduler_running = true ∧
    (health_check ⟨none, none⟩
      (runEvents ⟨none, none⟩ startState
        ([Event.reqHealth] ++ Event.shutdown :: [Event.reqHealth]))).body.scheduler_running = false :=
  ⟨(C8_scheduler_running_flag ⟨none, none⟩ [Event.reqHealth, Event.reqHome] []).1 (by decide),
   (C8_scheduler_running_flag ⟨none, none⟩ [Event.reqHealth] [Event.reqHealth]).2⟩

/-- C9: every read endpoint is stateless and idempotent — handling any
non-shutdown event leaves the process state unchanged, and handling it
again from the resulting state returns the identical response. -/
theorem C9_read_endpoints_stateless :
    ∀ (env : Env) (st : ProcState) (e : Event), e ≠ Event.shutdown →
      (stepEvent env st e).2 = st ∧
      (stepEvent env (stepEvent env st e).2 e).1 = (stepEvent env st e).1 := by
  intro env st e he
  cases e with
  | shutdown => exact absurd rfl he
  | reqHome => exact ⟨rfl, rfl⟩
  | reqSignal => exact ⟨rfl, rfl⟩
  | reqHealth => exact ⟨rfl, rfl⟩

/-- C9 witness: the health endpoint at the start state is stateless and
idempotent. -/
theorem C9_read_endpoints_stateless_witness :
    (stepEvent ⟨none, none⟩ startState Event.reqHealth).2 = startState ∧
    (stepEvent ⟨none, none⟩ (stepEvent ⟨none, none⟩ startState Event.reqHealth).2 Event.reqHealth).1 =
      (stepEvent ⟨none, none⟩ startState Event.reqHealth).1 :=
  C9_read_endpoints_stateless ⟨none, none⟩ startState Event.reqHealth (by decide)

/-- C10: a `BOT_TOKEN` that is set but empty behaves exactly like an
absent one — no bot client is constructed, the notifier behaves
identically (in particular makes zero messaging calls), the health
endpoint answers identically and reports `telegram_configured: false`. -/
theorem C10_empty_token_like_unset :
    ∀ (chat : Option String) (outcome : Except String Unit) (st : ProcState),
      initBot ⟨some "", chat⟩ = none ∧
      send_signal ⟨some "", chat⟩ outcome = send_signal ⟨none, chat⟩ outcome ∧
      (send_signal ⟨some "", chat⟩ outcome).sendCalls = [] ∧
      health_check ⟨some "", chat⟩ st = health_check ⟨none, chat⟩ st ∧
      (health_check ⟨some "", chat⟩ st).body.telegram_configured = false := by
  intro chat outcome st
  have h1 : initBot ⟨some "", chat⟩ = none := rfl
  have h2 : initBot ⟨none, chat⟩ = none := rfl
  refine ⟨rfl, ?_, ?_, ?_, ?_⟩
  · simp [send_signal, h1, h2]
  · simp [send_signal, h1]
  · simp [health_check, h1, h2]
  · simp [health_check, h1]

end GoldAI
